import Mathlib

/-!
Shallow embedding of the lanternfly image-upload service (`src/app.py`) and of
the werkzeug `secure_filename` sanitizer it calls.

Modelling conventions:
* Strings are handled at the `List Char` level so that every operation is
  structurally recursive and kernel-evaluable.
* The current UTC instant is passed explicitly as a `UTCTime` value; the
  source reads it from the wall clock (`datetime.now(timezone.utc)`).
* The Azure container client is modelled as a `Store` value (base URL plus a
  keyed list of blobs); exceptions raised while talking to the store are
  modelled by an explicit outcome parameter (`PutOutcome` / `ListOutcome`),
  since only the store interaction can raise inside the handlers' `try` blocks.
* The host is POSIX: `os.sep = '/'`, `os.path.altsep = None`, `os.name ≠ "nt"`,
  so `secure_filename`'s Windows-device-file branch is dead code and the only
  separator replaced is `'/'`.
-/

/-- Characters treated as whitespace by Python's `str.split()` with no
arguments, restricted to ASCII (code points 9–13, 28–31, 32); the input has
already been filtered to ASCII when this is used. -/
def pyIsSpace (c : Char) : Bool :=
  c == ' ' || c == '\t' || c == '\n' || c == '\x0b' || c == '\x0c' || c == '\r' ||
  c == '\x1c' || c == '\x1d' || c == '\x1e' || c == '\x1f'

/-- The character class kept by werkzeug's `_filename_ascii_strip_re`
substitution: `[A-Za-z0-9_.-]`. -/
def allowedChar (c : Char) : Bool :=
  c.isAlpha || c.isDigit || c == '_' || c == '.' || c == '-'

/-- The characters stripped from both ends by `.strip("._")`. -/
def stripChar (c : Char) : Bool :=
  c == '.' || c == '_'

/-- `filename.encode("ascii", "ignore").decode("ascii")` after
`unicodedata.normalize("NFKD", filename)`: NFKD is the identity on ASCII text
and the encode step drops everything outside ASCII, so the composite is
embedded as the ASCII filter (exact on inputs whose characters have no ASCII
decomposition). -/
def asciiFold (l : List Char) : List Char :=
  l.filter (fun c => decide (c.toNat < 128))

/-- `filename.replace(os.sep, " ")` on a POSIX host: replace `'/'` by a
space. -/
def sepToSpace (l : List Char) : List Char :=
  l.map (fun c => if c == '/' then ' ' else c)

/-- `"_".join(filename.split())`: split on runs of whitespace (dropping empty
pieces, as the argument-less `str.split` does) and re-join with `'_'`. -/
def pySplitJoin (l : List Char) : List Char :=
  List.intercalate ['_'] ((List.splitOnP pyIsSpace l).filter (fun w => !w.isEmpty))

/-- Python's `str.strip(chars)`: drop characters satisfying `p` from both
ends. -/
def pyStripChars (p : Char → Bool) (l : List Char) : List Char :=
  ((l.dropWhile p).reverse.dropWhile p).reverse

/-- werkzeug's `secure_filename`, character-list level, specialised to a POSIX
host (the `os.name == "nt"` device-file branch is dead there). -/
def secureFilenameChars (l : List Char) : List Char :=
  pyStripChars stripChar ((pySplitJoin (sepToSpace (asciiFold l))).filter allowedChar)

/-- werkzeug's `secure_filename`. -/
def secure_filename (s : String) : String :=
  ⟨secureFilenameChars s.data⟩

/-- A UTC wall-clock instant at second precision, as consumed by
`strftime("%Y%m%dT%H%M%S")`. -/
structure UTCTime where
  year : Nat
  month : Nat
  day : Nat
  hour : Nat
  minute : Nat
  second : Nat
deriving DecidableEq

/-- Zero-pad to two digits (`%m`, `%d`, `%H`, `%M`, `%S`). -/
def pad2 (n : Nat) : String :=
  if n < 10 then "0" ++ toString n else toString n

/-- Zero-pad to four digits (`%Y`). -/
def pad4 (n : Nat) : String :=
  if n < 10 then "000" ++ toString n
  else if n < 100 then "00" ++ toString n
  else if n < 1000 then "0" ++ toString n
  else toString n

/-- `datetime.now(timezone.utc).strftime("%Y%m%dT%H%M%S")` for the instant
`t`. -/
def strftimeCompact (t : UTCTime) : String :=
  pad4 t.year ++ pad2 t.month ++ pad2 t.day ++ "T" ++
  pad2 t.hour ++ pad2 t.minute ++ pad2 t.second

/-- The local `safe = secure_filename(original_filename or "upload")` of
`_timestamped_name`: Python's `or` takes the right operand exactly when the
left one is the empty string. -/
def safePart (original_filename : String) : String :=
  secure_filename (if original_filename = "" then "upload" else original_filename)

/-- `_timestamped_name` from `src/app.py`, with the wall-clock instant made
explicit. -/
def timestamped_name (t : UTCTime) (original_filename : String) : String :=
  strftimeCompact t ++ "-" ++ safePart original_filename

/-- The `file` part of a multipart request: werkzeug `FileStorage` with the
fields the handler reads. `mimetype` is `none` when no content type was
declared. -/
structure FileStorage where
  filename : String
  mimetype : Option String
  stream : List Nat
deriving DecidableEq

/-- `_is_image_upload`: `(file_storage.mimetype or "").lower()` must start
with `"image/"`.  Lowering is per-character ASCII lowering (exact for ASCII
content types; Python's Unicode-aware `lower` never turns a non-ASCII prefix
into `"image/"` either). -/
def is_image_upload (f : FileStorage) : Bool :=
  List.isPrefixOf "image/".data ((f.mimetype.getD "").data.map Char.toLower)

/-- One stored blob: key, payload bytes, declared content type. -/
structure Blob where
  name : String
  payload : List Nat
  contentType : Option String
deriving DecidableEq

/-- The container client: its public base URL and the blobs it holds. -/
structure Store where
  url : String
  blobs : List Blob
deriving DecidableEq

/-- `container_client.upload_blob(name, data, overwrite=True, ...)`: replace
the blob with that name if present, otherwise append it. -/
def putBlob (st : Store) (name : String) (payload : List Nat)
    (contentType : Option String) : Store :=
  if st.blobs.any (fun b => b.name == name) then
    { st with blobs := st.blobs.map (fun b => if b.name == name then ⟨name, payload, contentType⟩ else b) }
  else
    { st with blobs := st.blobs ++ [⟨name, payload, contentType⟩] }

/-- Whether the store write inside the `try` block raises, and with which
`str(exc)` if so. -/
inductive PutOutcome where
  | ok : PutOutcome
  | err : String → PutOutcome
deriving DecidableEq

/-- The JSON body and status code produced by the upload handler. -/
structure UploadResponse where
  status : Nat
  ok : Bool
  error : Option String
  url : Option String
deriving DecidableEq

/-- The `upload` handler of `src/app.py`.  `req` is the `file` part when one
is present; the returned pair is (response, store after the call). -/
def upload (t : UTCTime) (req : Option FileStorage) (st : Store)
    (outcome : PutOutcome) : UploadResponse × Store :=
  match req with
  | none =>
    ({ status := 400, ok := false, error := some "Missing file", url := none }, st)
  | some f =>
    if f.filename = "" then
      ({ status := 400, ok := false, error := some "Empty filename", url := none }, st)
    else if !is_image_upload f then
      ({ status := 400, ok := false,
         error := some "Only image/* content types are allowed", url := none }, st)
    else
      match outcome with
      | .err msg =>
        ({ status := 500, ok := false, error := some msg, url := none }, st)
      | .ok =>
        let blob_name := timestamped_name t f.filename
        let st' := putBlob st blob_name f.stream f.mimetype
        ({ status := 200, ok := true, error := none,
           url := some (st'.url ++ "/" ++ blob_name) }, st')

/-- Whether `list_blobs()` raises, and with which `str(exc)` if so. -/
inductive ListOutcome where
  | ok : ListOutcome
  | err : String → ListOutcome
deriving DecidableEq

/-- The JSON body and status code produced by the gallery handler. -/
structure GalleryResponse where
  status : Nat
  ok : Bool
  error : Option String
  gallery : Option (List String)
deriving DecidableEq

/-- Python's string comparison: strict lexicographic order on code points. -/
def lexLt : List Char → List Char → Bool
  | _, [] => false
  | [], _ :: _ => true
  | a :: as, b :: bs =>
    if a.toNat < b.toNat then true
    else if b.toNat < a.toNat then false
    else lexLt as bs

/-- The order established by `urls.sort(reverse=True)`: an earlier element is
never strictly below a later one. -/
def descOrder (a b : String) : Prop :=
  lexLt a.data b.data = false

instance : DecidableRel descOrder :=
  fun a b => instDecidableEqBool (lexLt a.data b.data) false

/-- `urls.sort(reverse=True)`: the stable sort into descending lexicographic
order (Python's sort is stable; over a total comparison on strings the sorted
result is unique, so any stable sort embeds it). -/
def pySortDesc (l : List String) : List String :=
  List.insertionSort descOrder l

/-- The `gallery` handler of `src/app.py`. -/
def gallery (st : Store) (outcome : ListOutcome) : GalleryResponse :=
  match outcome with
  | .err msg =>
    { status := 500, ok := false, error := some msg, gallery := none }
  | .ok =>
    let urls := st.blobs.map (fun b => st.url ++ "/" ++ b.name)
    { status := 200, ok := true, error := none, gallery := some (pySortDesc urls) }

/-- The JSON body and status code produced by the health handler. -/
structure HealthResponse where
  ok : Bool
  status : Nat
deriving DecidableEq

/-- The `health` handler of `src/app.py`: `jsonify(ok=True)` with Flask's
default status 200. -/
def health : HealthResponse :=
  { ok := true, status := 200 }

/-- A fixed instant used to instantiate time-parametric statements. -/
def t0 : UTCTime :=
  ⟨2024, 6, 1, 12, 30, 5⟩

/-- An empty container under a fixed base URL. -/
def st0 : Store :=
  ⟨"https://acct.blob.core.windows.net/lanternfly-images", []⟩

/-- A valid image upload part. -/
def fGood : FileStorage :=
  ⟨"bug photo.png", some "image/png", [7, 7]⟩

/-- A part whose declared content type is not an image type. -/
def fText : FileStorage :=
  ⟨"notes.txt", some "text/plain", [1]⟩

/-- A part with an empty client-supplied filename. -/
def fEmpty : FileStorage :=
  ⟨"", some "image/png", [1]⟩

/-- A part that declared no content type at all. -/
def fNoMime : FileStorage :=
  ⟨"a.png", none, []⟩

/-- The two-blob store of the spec's gallery-ordering example. -/
def exampleStore : Store :=
  ⟨"https://store.example",
   [⟨"20240101T000000-a.png", [], none⟩, ⟨"20240601T000000-b.png", [], none⟩]⟩

/-! Helper lemmas about the lexicographic comparison. -/

theorem lexLt_nil_right : ∀ l : List Char, lexLt l [] = false
  | [] => rfl
  | _ :: _ => rfl

theorem lexLt_irrefl : ∀ l : List Char, lexLt l l = false
  | [] => rfl
  | a :: as => by
    have h : ¬ a.toNat < a.toNat := Nat.lt_irrefl _
    simp [lexLt, h, lexLt_irrefl as]

theorem lexLt_cons_iff {a b : Char} {as bs : List Char} :
    lexLt (a :: as) (b :: bs) = true ↔
      a.toNat < b.toNat ∨ (a.toNat = b.toNat ∧ lexLt as bs = true) := by
  by_cases h1 : a.toNat < b.toNat
  · simp [lexLt, h1]
  · by_cases h2 : b.toNat < a.toNat
    · simp only [lexLt]
      rw [if_neg h1, if_pos h2]
      constructor
      · intro h; cases h
      · rintro (h | ⟨h, -⟩) <;> omega
    · have h3 : a.toNat = b.toNat := by omega
      simp [lexLt, h1, h2, h3]

theorem lexLt_trans : ∀ (a b c : List Char),
    lexLt a b = true → lexLt b c = true → lexLt a c = true
  | a, [], c, h1, _ => by rw [lexLt_nil_right] at h1; cases h1
  | _, _ :: _, [], _, h2 => by rw [lexLt_nil_right] at h2; cases h2
  | [], _ :: _, _ :: _, _, _ => rfl
  | a :: as, b :: bs, c :: cs, h1, h2 => by
    rw [lexLt_cons_iff] at h1 h2 ⊢
    rcases h1 with h1 | ⟨h1e, h1r⟩
    · rcases h2 with h2 | ⟨h2e, h2r⟩
      · exact Or.inl (by omega)
      · exact Or.inl (by omega)
    · rcases h2 with h2 | ⟨h2e, h2r⟩
      · exact Or.inl (by omega)
      · exact Or.inr ⟨by omega, lexLt_trans as bs cs h1r h2r⟩

theorem lexLt_tri : ∀ (a b : List Char), lexLt a b = true ∨ a = b ∨ lexLt b a = true
  | [], [] => Or.inr (Or.inl rfl)
  | [], _ :: _ => Or.inl rfl
  | _ :: _, [] => Or.inr (Or.inr rfl)
  | a :: as, b :: bs => by
    rcases Nat.lt_trichotomy a.toNat b.toNat with h | h | h
    · exact Or.inl (lexLt_cons_iff.mpr (Or.inl h))
    · have hab : a = b := by
        have hc := congrArg Char.ofNat h
        rwa [Char.ofNat_toNat, Char.ofNat_toNat] at hc
      rcases lexLt_tri as bs with h2 | h2 | h2
      · exact Or.inl (lexLt_cons_iff.mpr (Or.inr ⟨h, h2⟩))
      · exact Or.inr (Or.inl (by rw [hab, h2]))
      · exact Or.inr (Or.inr (lexLt_cons_iff.mpr (Or.inr ⟨h.symm, h2⟩)))
    · exact Or.inr (Or.inr (lexLt_cons_iff.mpr (Or.inl h)))

theorem lexLt_asymm {x y : List Char} (h : lexLt x y = true) : lexLt y x = false := by
  by_contra hy
  rw [Bool.not_eq_false] at hy
  have hxx := lexLt_trans x y x h hy
  rw [lexLt_irrefl] at hxx
  cases hxx

theorem lexLt_false_trans {x y z : List Char}
    (h1 : lexLt x y = false) (h2 : lexLt y z = false) : lexLt x z = false := by
  rcases lexLt_tri x y with h | h | h
  · rw [h] at h1; cases h1
  · subst h; exact h2
  · rcases lexLt_tri y z with g | g | g
    · rw [g] at h2; cases h2
    · subst g; exact h1
    · by_contra hxz
      rw [Bool.not_eq_false] at hxz
      have hzx := lexLt_trans z y x g h
      have hxx := lexLt_trans x z x hxz hzx
      rw [lexLt_irrefl] at hxx
      cases hxx

instance : IsTrans String descOrder :=
  ⟨fun _ _ _ h1 h2 => lexLt_false_trans h1 h2⟩

instance : IsTotal String descOrder :=
  ⟨fun a b => by
    cases h : lexLt a.data b.data
    · exact Or.inl h
    · exact Or.inr (lexLt_asymm h)⟩

/-! Helper lemmas about sanitization. -/

theorem mem_of_mem_pyStripChars {p : Char → Bool} {l : List Char} {c : Char}
    (h : c ∈ pyStripChars p l) : c ∈ l := by
  unfold pyStripChars at h
  rw [List.mem_reverse] at h
  have h1 := (List.dropWhile_sublist p).subset h
  rw [List.mem_reverse] at h1
  exact (List.dropWhile_sublist p).subset h1

theorem allowedChar_of_mem_secure {s : String} {c : Char}
    (h : c ∈ (secure_filename s).data) : allowedChar c = true := by
  have h1 : c ∈ secureFilenameChars s.data := h
  unfold secureFilenameChars at h1
  have h2 := mem_of_mem_pyStripChars h1
  exact (List.mem_filter.mp h2).2

theorem not_sep_of_allowed {c : Char} (h : allowedChar c = true) :
    (!(c == '/') && !(c == '\\')) = true := by
  by_cases h1 : c = '/'
  · subst h1; exact absurd h (by decide)
  · by_cases h2 : c = '\\'
    · subst h2; exact absurd h (by decide)
    · simp [h1, h2]

/-! Helper lemmas about the store and the upload handler. -/

theorem putBlob_url (st : Store) (k : String) (d : List Nat) (c : Option String) :
    (putBlob st k d c).url = st.url := by
  unfold putBlob
  split <;> rfl

theorem putBlob_eq_pos (st : Store) (k : String) (d : List Nat) (c : Option String)
    (h : st.blobs.any (fun b => b.name == k) = true) :
    putBlob st k d c =
      { st with blobs := st.blobs.map (fun b => if b.name == k then ⟨k, d, c⟩ else b) } := by
  unfold putBlob
  rw [if_pos h]

theorem putBlob_eq_neg (st : Store) (k : String) (d : List Nat) (c : Option String)
    (h : st.blobs.any (fun b => b.name == k) = false) :
    putBlob st k d c = { st with blobs := st.blobs ++ [⟨k, d, c⟩] } := by
  unfold putBlob
  rw [if_neg (by rw [h]; exact Bool.false_ne_true)]

theorem putBlob_overwrite (st : Store) (k : String) (d d' : List Nat)
    (c c' : Option String) :
    putBlob (putBlob st k d c) k d' c' = putBlob st k d' c' := by
  by_cases h : st.blobs.any (fun b => b.name == k) = true
  · obtain ⟨b0, hb0, hbk⟩ := List.any_eq_true.mp h
    have hany2 : ((st.blobs.map (fun b => if b.name == k then (⟨k, d, c⟩ : Blob) else b)).any
        (fun b => b.name == k)) = true := by
      refine List.any_eq_true.mpr ⟨_, List.mem_map_of_mem _ hb0, ?_⟩
      rw [if_pos hbk]
      simp
    rw [putBlob_eq_pos st k d c h, putBlob_eq_pos _ k d' c' hany2,
      putBlob_eq_pos st k d' c' h]
    congr 1
    rw [List.map_map]
    refine List.map_congr_left ?_
    intro b _
    by_cases hb : (b.name == k) = true
    · simp [Function.comp, hb]
    · simp [Function.comp, hb]
  · rw [Bool.not_eq_true] at h
    have hall := List.any_eq_false.mp h
    have hany2 : ((st.blobs ++ [(⟨k, d, c⟩ : Blob)]).any (fun b => b.name == k)) = true := by
      rw [List.any_append]
      simp
    rw [putBlob_eq_neg st k d c h, putBlob_eq_pos _ k d' c' hany2,
      putBlob_eq_neg st k d' c' h]
    congr 1
    rw [List.map_append]
    congr 1
    · have hid : ∀ b ∈ st.blobs, (if b.name == k then (⟨k, d', c'⟩ : Blob) else b) = b := by
        intro b hb
        rw [if_neg]
        intro hc
        exact hall b hb hc
      rw [List.map_congr_left hid]
      simp
    · simp

theorem upload_ok_eq (t : UTCTime) (f : FileStorage) (st : Store)
    (h1 : f.filename ≠ "") (h2 : is_image_upload f = true) :
    upload t (some f) st .ok =
      ({ status := 200, ok := true, error := none,
         url := some ((putBlob st (timestamped_name t f.filename) f.stream f.mimetype).url ++
           "/" ++ timestamped_name t f.filename) },
       putBlob st (timestamped_name t f.filename) f.stream f.mimetype) := by
  simp [upload, h1, h2]

/-! The claims. -/

/-- Claim C1, counterexample: for the non-empty client filename `".."` — which
passes the handler's emptiness check — the sanitized component of the storage
key is the empty string, so the sanitized component is not always non-empty
and the `upload` fallback is not applied whenever sanitization yields an empty
result (the code applies it only when the input filename itself is empty). -/
theorem C1_counterexample :
    safePart ".." = "" ∧ timestamped_name ⟨2024, 1, 1, 0, 0, 0⟩ ".." = "20240101T000000-" := by
  constructor
  · decide
  · decide

/-- Claim C1 (amended): every character of the sanitized filename component
lies in the class `[A-Za-z0-9_.-]` — in particular the component contains no
path separator `'/'` or `'\\'` — and the fallback to the literal `"upload"`
applies exactly when the client-supplied filename is the empty string; the
sanitized component of a non-empty filename may itself be empty. -/
theorem C1_sanitized_charset (fn : String) :
    (safePart fn).data.all allowedChar = true ∧
    (safePart fn).data.all (fun c => !(c == '/') && !(c == '\\')) = true ∧
    safePart "" = "upload" := by
  refine ⟨?_, ?_, by decide⟩
  · rw [List.all_eq_true]
    intro c hc
    exact allowedChar_of_mem_secure hc
  · rw [List.all_eq_true]
    intro c hc
    exact not_sep_of_allowed (allowedChar_of_mem_secure hc)

/-- Claim C2: for an upload that passes validation, the storage key — the blob
name written to the store and the suffix of the returned URL — is the UTC
instant formatted `YYYYMMDDTHHMMSS`, a single hyphen, and the sanitized
original filename. -/
theorem C2_key_format (t : UTCTime) (f : FileStorage) (st : Store)
    (h1 : f.filename ≠ "") (h2 : is_image_upload f = true) :
    (upload t (some f) st .ok).1.url =
      some (st.url ++ "/" ++ (strftimeCompact t ++ "-" ++ secure_filename f.filename)) ∧
    (upload t (some f) st .ok).2 =
      putBlob st (strftimeCompact t ++ "-" ++ secure_filename f.filename)
        f.stream f.mimetype := by
  have hk : timestamped_name t f.filename =
      strftimeCompact t ++ "-" ++ secure_filename f.filename := by
    unfold timestamped_name safePart
    rw [if_neg h1]
  rw [upload_ok_eq t f st h1 h2, hk]
  rw [putBlob_url]
  exact ⟨rfl, rfl⟩

/-- Witness for C2 at a concrete instant, file part and store. -/
theorem C2_key_format_witness :
    (upload t0 (some fGood) st0 .ok).1.url =
      some (st0.url ++ "/" ++ (strftimeCompact t0 ++ "-" ++ secure_filename fGood.filename)) ∧
    (upload t0 (some fGood) st0 .ok).2 =
      putBlob st0 (strftimeCompact t0 ++ "-" ++ secure_filename fGood.filename)
        fGood.stream fGood.mimetype :=
  C2_key_format t0 fGood st0 (by decide) (by decide)

/-- Claim C3: an upload whose file part declares a content type that does not
start with `image/` (case-insensitively) is rejected with `ok = false`,
status 400 and the fixed error message, whatever the payload, the store and
the store outcome. -/
theorem C3_non_image_rejected (t : UTCTime) (f : FileStorage) (st : Store)
    (out : PutOutcome) (h1 : f.filename ≠ "") (h2 : is_image_upload f = false) :
    upload t (some f) st out =
      ({ status := 400, ok := false,
         error := some "Only image/* content types are allowed", url := none }, st) := by
  simp [upload, h1, h2]

/-- Witness for C3 on a `text/plain` part. -/
theorem C3_non_image_rejected_witness :
    upload t0 (some fText) st0 .ok =
      ({ status := 400, ok := false,
         error := some "Only image/* content types are allowed", url := none }, st0) :=
  C3_non_image_rejected t0 fText st0 .ok (by decide) (by decide)

/-- Claim C4: each of the three validation failures — missing `file` part,
empty filename, disallowed content type — yields `ok = false`, status 400 and
its message, and the store is returned unchanged (no object is written),
whatever the store outcome parameter would have been. -/
theorem C4_validation_no_store (t : UTCTime) (st : Store) (out : PutOutcome) :
    upload t none st out =
      ({ status := 400, ok := false, error := some "Missing file", url := none }, st) ∧
    (∀ f : FileStorage, f.filename = "" →
      upload t (some f) st out =
        ({ status := 400, ok := false, error := some "Empty filename", url := none }, st)) ∧
    (∀ f : FileStorage, f.filename ≠ "" → is_image_upload f = false →
      upload t (some f) st out =
        ({ status := 400, ok := false,
           error := some "Only image/* content types are allowed", url := none }, st)) := by
  refine ⟨rfl, ?_, ?_⟩
  · intro f hf
    simp [upload, hf]
  · intro f hf hm
    simp [upload, hf, hm]

/-- Witness for C4: the three failure branches at concrete inputs. -/
theorem C4_validation_no_store_witness :
    upload t0 none st0 .ok =
      ({ status := 400, ok := false, error := some "Missing file", url := none }, st0) ∧
    upload t0 (some fEmpty) st0 .ok =
      ({ status := 400, ok := false, error := some "Empty filename", url := none }, st0) ∧
    upload t0 (some fText) st0 .ok =
      ({ status := 400, ok := false,
         error := some "Only image/* content types are allowed", url := none }, st0) :=
  ⟨(C4_validation_no_store t0 st0 .ok).1,
   (C4_validation_no_store t0 st0 .ok).2.1 fEmpty rfl,
   (C4_validation_no_store t0 st0 .ok).2.2 fText (by decide) (by decide)⟩

/-- Claim C5: a valid image upload whose store write succeeds returns
`ok = true`, status 200, and the URL `<store-base-url>/<key>`, whose suffix is
the generated storage key. -/
theorem C5_success_url (t : UTCTime) (f : FileStorage) (st : Store)
    (h1 : f.filename ≠ "") (h2 : is_image_upload f = true) :
    (upload t (some f) st .ok).1.status = 200 ∧
    (upload t (some f) st .ok).1.ok = true ∧
    (upload t (some f) st .ok).1.url =
      some (st.url ++ "/" ++ timestamped_name t f.filename) ∧
    (timestamped_name t f.filename).data <:+
      (st.url ++ "/" ++ timestamped_name t f.filename).data := by
  rw [upload_ok_eq t f st h1 h2]
  refine ⟨rfl, rfl, by rw [putBlob_url], ?_⟩
  exact ⟨(st.url ++ "/").data, by simp⟩

/-- Witness for C5 at a concrete instant, file part and store. -/
theorem C5_success_url_witness :
    (upload t0 (some fGood) st0 .ok).1.status = 200 ∧
    (upload t0 (some fGood) st0 .ok).1.ok = true ∧
    (upload t0 (some fGood) st0 .ok).1.url =
      some (st0.url ++ "/" ++ timestamped_name t0 fGood.filename) ∧
    (timestamped_name t0 fGood.filename).data <:+
      (st0.url ++ "/" ++ timestamped_name t0 fGood.filename).data :=
  C5_success_url t0 fGood st0 (by decide) (by decide)

/-- Claim C6: a successful gallery call returns `ok = true`, status 200, and
the full listing mapped to `<store-base-url>/<key>` URLs sorted in descending
lexicographic order (a permutation of the listing's URLs, pairwise
non-increasing); on the spec's two-key example the June key's URL precedes the
January key's URL. -/
theorem C6_gallery_sorted (st : Store) :
    gallery st .ok =
      { status := 200, ok := true, error := none,
        gallery := some (pySortDesc (st.blobs.map (fun b => st.url ++ "/" ++ b.name))) } ∧
    (pySortDesc (st.blobs.map (fun b => st.url ++ "/" ++ b.name))).Perm
      (st.blobs.map (fun b => st.url ++ "/" ++ b.name)) ∧
    List.Sorted descOrder (pySortDesc (st.blobs.map (fun b => st.url ++ "/" ++ b.name))) ∧
    gallery exampleStore .ok =
      { status := 200, ok := true, error := none,
        gallery := some ["https://store.example/20240601T000000-b.png",
                         "https://store.example/20240101T000000-a.png"] } :=
  ⟨rfl, List.perm_insertionSort descOrder _, List.sorted_insertionSort descOrder _,
   by decide⟩

/-- Claim C7: when the store interaction raises, the upload handler returns
`ok = false`, status 500, the exception's string representation, and leaves
the store unchanged; the gallery handler likewise returns `ok = false`,
status 500 with the error string and no partial list. -/
theorem C7_store_error_500 (t : UTCTime) (f : FileStorage) (st : Store) (msg : String)
    (h1 : f.filename ≠ "") (h2 : is_image_upload f = true) :
    upload t (some f) st (.err msg) =
      ({ status := 500, ok := false, error := some msg, url := none }, st) ∧
    gallery st (.err msg) =
      { status := 500, ok := false, error := some msg, gallery := none } := by
  refine ⟨?_, rfl⟩
  simp [upload, h1, h2]

/-- Witness for C7 with a concrete exception string. -/
theorem C7_store_error_500_witness :
    upload t0 (some fGood) st0 (.err "connection reset") =
      ({ status := 500, ok := false, error := some "connection reset", url := none }, st0) ∧
    gallery st0 (.err "connection reset") =
      { status := 500, ok := false, error := some "connection reset", gallery := none } :=
  C7_store_error_500 t0 fGood st0 "connection reset" (by decide) (by decide)

/-- Claim C8: two valid uploads of the same filename within the same UTC
second generate the same storage key, so the second write overwrites the first
(the store after the second call equals the store after the first) and both
calls return the same URL. -/
theorem C8_same_second_idempotent (t : UTCTime) (f : FileStorage) (st : Store)
    (h1 : f.filename ≠ "") (h2 : is_image_upload f = true) :
    (upload t (some f) ((upload t (some f) st .ok).2) .ok).1.url =
      (upload t (some f) st .ok).1.url ∧
    (upload t (some f) ((upload t (some f) st .ok).2) .ok).2 =
      (upload t (some f) st .ok).2 := by
  have e1 := upload_ok_eq t f st h1 h2
  have e2 := upload_ok_eq t f
    (putBlob st (timestamped_name t f.filename) f.stream f.mimetype) h1 h2
  rw [e1]
  simp only []
  rw [e2, putBlob_overwrite]
  exact ⟨rfl, rfl⟩

/-- Witness for C8 at a concrete instant, file part and store. -/
theorem C8_same_second_idempotent_witness :
    (upload t0 (some fGood) ((upload t0 (some fGood) st0 .ok).2) .ok).1.url =
      (upload t0 (some fGood) st0 .ok).1.url ∧
    (upload t0 (some fGood) ((upload t0 (some fGood) st0 .ok).2) .ok).2 =
      (upload t0 (some fGood) st0 .ok).2 :=
  C8_same_second_idempotent t0 fGood st0 (by decide) (by decide)

/-- Claim C9: the health handler returns `ok = true` with status 200; it takes
no input at all, so the result is independent of any store state. -/
theorem C9_health_unconditional :
    health = { ok := true, status := 200 } :=
  rfl

/-- Claim C10: a file part that declared no content type is handled as the
empty content type — `(mimetype or "")` — hence rejected as non-image with
`ok = false`, status 400 and the fixed message; no error is raised and the
store is untouched. -/
theorem C10_missing_mimetype (t : UTCTime) (f : FileStorage) (st : Store)
    (out : PutOutcome) (h1 : f.filename ≠ "") (h2 : f.mimetype = none) :
    f.mimetype.getD "" = "" ∧
    is_image_upload f = false ∧
    upload t (some f) st out =
      ({ status := 400, ok := false,
         error := some "Only image/* content types are allowed", url := none }, st) := by
  have hm : is_image_upload f = false := by
    unfold is_image_upload
    rw [h2]
    rfl
  refine ⟨by rw [h2]; rfl, hm, by simp [upload, h1, hm]⟩

/-- Witness for C10 on a part with no declared content type. -/
theorem C10_missing_mimetype_witness :
    fNoMime.mimetype.getD "" = "" ∧
    is_image_upload fNoMime = false ∧
    upload t0 (some fNoMime) st0 .ok =
      ({ status := 400, ok := false,
         error := some "Only image/* content types are allowed", url := none }, st0) :=
  C10_missing_mimetype t0 fNoMime st0 .ok (by decide) rfl
